import Mathlib

/-!
Shallow embedding of `scripts/check-contract-state.py` (KhipuVault).

The script connects to a JSON-RPC endpoint, reads pause flags of two pool
contracts and the yield aggregator (plus the aggregator's vault list), and
prints a readiness summary.  We model the external world as the outcome of
each network interaction, and `run` as the full sequential execution of
`main`, recording the exit code, the trace of contract calls issued, every
printed line together with the stream it goes to, and the final verdict.
-/

namespace KhipuCheck

/-- RPC URL constant (`MEZO_TESTNET_RPC` in the script). -/
def MEZO_TESTNET_RPC : String := "https://testnet-rpc.mezo.org"

/-- Chain id constant (`CHAIN_ID`). -/
def CHAIN_ID : Nat := 31611

/-- Address constant `INDIVIDUAL_POOL`. -/
def INDIVIDUAL_POOL : String := "0xC2c7c8E1325Ec049302F225c8A0151E561F446Ed"

/-- Address constant `COOPERATIVE_POOL`. -/
def COOPERATIVE_POOL : String := "0xDDe8c75271E454075BD2f348213A66B142BB8906"

/-- Address constant `YIELD_AGGREGATOR`. -/
def YIELD_AGGREGATOR : String := "0xfB3265402f388d72a9b63353b4a7BeeC4fD9De4c"

/-- Address constant `MEZO_INTEGRATION` (declared in the script, never used
in any call). -/
def MEZO_INTEGRATION : String := "0x9AC6249d2f2E3cbAAF34E114EdF1Cb7519AF04C2"

/-- The stream an output line is written to.  Python's `print(...)` with no
`file=` argument writes to standard output. -/
inductive OutStream where
  | stdout
  | stderr
deriving Repr, DecidableEq

/-- One contract read issued over RPC: target address and function name. -/
structure ContractCall where
  address : String
  method : String
deriving Repr, DecidableEq

/-- The dictionary returned by `check_yield_aggregator_state` on success. -/
structure AggState where
  paused : Bool
  deposits_paused : Bool
  num_vaults : Nat
  vaults : List String
deriving Repr, DecidableEq

/-- Outcome of every external interaction the script can perform, fixed
before the run.  `connect` models the guarded connection phase:
`Except.error e` means the `Web3` construction or `is_connected()` raised
exception `e`; `Except.ok b` means `is_connected()` returned `b`.
`blockNumber` is the value shown in the connected banner.  Each remaining
field is the outcome of one contract call: `Except.error e` means the call
raised an exception whose string form is `e`. -/
structure World where
  connect : Except String Bool
  blockNumber : Nat
  indPaused : Except String Bool
  coopPaused : Except String Bool
  aggPaused : Except String Bool
  aggDepositsPaused : Except String Bool
  aggVaults : Except String (List String)
deriving Repr

/-- Python string repetition, `s * n`. -/
def pyRepeat (s : String) (n : Nat) : String :=
  String.join (List.replicate n s)

/-- Python truthiness of the `ind_paused` / `coop_paused` variables:
`None` is falsy, a boolean is itself. -/
def truthy : Option Bool → Bool
  | none => false
  | some b => b

/-- `check_contract_paused(w3, contract_address, contract_name)`: issues the
`paused()` call; on success returns the flag, on exception prints the error
line (via `print`, hence to standard output) and returns `None`.  Result:
(returned value, calls issued, lines printed). -/
def check_contract_paused (result : Except String Bool)
    (contract_address contract_name : String) :
    Option Bool × List ContractCall × List (OutStream × String) :=
  match result with
  | Except.ok b => (some b, [⟨contract_address, "paused"⟩], [])
  | Except.error e =>
      (none, [⟨contract_address, "paused"⟩],
        [(OutStream.stdout, "❌ Error checking " ++ contract_name ++ ": " ++ e)])

/-- `check_yield_aggregator_state(w3)`: the three calls `paused()`,
`depositsPaused()`, `activeVaultsList()` run in order inside one `try`; the
first exception aborts the unit, prints the error line and returns `None`.
On success returns the state dictionary, with `num_vaults = len(vaults)`.
Result: (returned value, calls issued, lines printed). -/
def check_yield_aggregator_state (w : World) :
    Option AggState × List ContractCall × List (OutStream × String) :=
  match w.aggPaused with
  | Except.error e =>
      (none, [⟨YIELD_AGGREGATOR, "paused"⟩],
        [(OutStream.stdout, "❌ Error checking YieldAggregator: " ++ e)])
  | Except.ok is_paused =>
    match w.aggDepositsPaused with
    | Except.error e =>
        (none, [⟨YIELD_AGGREGATOR, "paused"⟩, ⟨YIELD_AGGREGATOR, "depositsPaused"⟩],
          [(OutStream.stdout, "❌ Error checking YieldAggregator: " ++ e)])
    | Except.ok deposits_paused =>
      match w.aggVaults with
      | Except.error e =>
          (none,
            [⟨YIELD_AGGREGATOR, "paused"⟩, ⟨YIELD_AGGREGATOR, "depositsPaused"⟩,
              ⟨YIELD_AGGREGATOR, "activeVaultsList"⟩],
            [(OutStream.stdout, "❌ Error checking YieldAggregator: " ++ e)])
      | Except.ok vaults =>
          (some { paused := is_paused, deposits_paused := deposits_paused,
                  num_vaults := vaults.length, vaults := vaults },
            [⟨YIELD_AGGREGATOR, "paused"⟩, ⟨YIELD_AGGREGATOR, "depositsPaused"⟩,
              ⟨YIELD_AGGREGATOR, "activeVaultsList"⟩],
            [])

/-- The readiness evaluation of `main` (lines 152-170): `can_deposit` starts
`True`, `issues` starts empty; `if ind_paused:` uses Python truthiness (so
`None` behaves like `False`); the three aggregator checks run only when
`agg_state` is available.  `coop_paused` is not consulted.  Returns
(`can_deposit`, `issues`). -/
def readiness (ind_paused : Option Bool) (agg_state : Option AggState) :
    Bool × List String :=
  let can_deposit := true
  let issues : List String := []
  let (can_deposit, issues) :=
    if truthy ind_paused then (false, issues ++ ["❌ IndividualPool is paused"])
    else (can_deposit, issues)
  match agg_state with
  | none => (can_deposit, issues)
  | some s =>
    let (can_deposit, issues) :=
      if s.paused then (false, issues ++ ["❌ YieldAggregator is paused"])
      else (can_deposit, issues)
    let (can_deposit, issues) :=
      if s.deposits_paused then (false, issues ++ ["❌ YieldAggregator deposits are paused"])
      else (can_deposit, issues)
    let (can_deposit, issues) :=
      if s.num_vaults == 0 then (false, issues ++ ["❌ No vaults configured in YieldAggregator"])
      else (can_deposit, issues)
    (can_deposit, issues)

/-- Observable result of one execution of `main`: process exit code, the
contract calls issued in order, every printed line with its stream, the
final `can_deposit` value (`none` when the run exited before the summary),
the `issues` list, and whether the summary block was reached. -/
structure RunResult where
  exitCode : Nat
  calls : List ContractCall
  output : List (OutStream × String)
  can_deposit : Option Bool
  issues : List String
  reachedSummary : Bool
deriving Repr

/-- The banner printed before the connection attempt (lines 86-91). -/
def headerOut : List (OutStream × String) :=
  [(OutStream.stdout, pyRepeat "=" 60),
   (OutStream.stdout, "🔍 Contract State Checker - KhipuVault"),
   (OutStream.stdout, pyRepeat "=" 60),
   (OutStream.stdout, "Network: Mezo Testnet (Chain ID: " ++ toString CHAIN_ID ++ ")"),
   (OutStream.stdout, "RPC: " ++ MEZO_TESTNET_RPC),
   (OutStream.stdout, "")]

/-- The connected banner and the contract-status header (lines 103-108). -/
def connectedOut (blockNumber : Nat) : List (OutStream × String) :=
  [(OutStream.stdout,
      "✓ Connected to Mezo Testnet (Block: " ++ toString blockNumber ++ ")"),
   (OutStream.stdout, ""),
   (OutStream.stdout, "Contract Status:"),
   (OutStream.stdout, pyRepeat "-" 60)]

/-- The IndividualPool status line (lines 112-116). -/
def indStatusOut : Option Bool → List (OutStream × String)
  | none => [(OutStream.stdout, "❓ IndividualPool: Status unknown")]
  | some b =>
      [(OutStream.stdout, "IndividualPool: " ++ (if b then "🔴 PAUSED" else "🟢 ACTIVE"))]

/-- The CooperativePool status line (lines 120-124). -/
def coopStatusOut : Option Bool → List (OutStream × String)
  | none => [(OutStream.stdout, "❓ CooperativePool: Status unknown")]
  | some b =>
      [(OutStream.stdout, "CooperativePool: " ++ (if b then "🔴 PAUSED" else "🟢 ACTIVE"))]

/-- The YieldAggregator section header (lines 127-129). -/
def aggHeaderOut : List (OutStream × String) :=
  [(OutStream.stdout, ""),
   (OutStream.stdout, "YieldAggregator Details:"),
   (OutStream.stdout, pyRepeat "-" 60)]

/-- The YieldAggregator detail block, printed only when the inspection
succeeded (lines 131-144). -/
def aggDetailOut : Option AggState → List (OutStream × String)
  | none => []
  | some s =>
      [(OutStream.stdout, "  Status: " ++ (if s.paused then "🔴 PAUSED" else "🟢 ACTIVE")),
       (OutStream.stdout,
          "  Deposits: " ++ (if s.deposits_paused then "🔴 PAUSED" else "🟢 ENABLED")),
       (OutStream.stdout, "  Configured Vaults: " ++ toString s.num_vaults)] ++
      (if s.num_vaults == 0 then
         [(OutStream.stdout, "  ⚠️  WARNING: No vaults configured!")]
       else
         (OutStream.stdout, "  Vaults:") ::
           s.vaults.map (fun v => (OutStream.stdout, "    - " ++ v)))

/-- The summary section header (lines 146-149). -/
def summaryHeaderOut : List (OutStream × String) :=
  [(OutStream.stdout, ""),
   (OutStream.stdout, pyRepeat "=" 60),
   (OutStream.stdout, "Summary:"),
   (OutStream.stdout, pyRepeat "-" 60)]

/-- The summary block (lines 172-182): the success line when `can_deposit`,
otherwise the issue lines and the fixed remediation hint. -/
def summaryOut (can_deposit : Bool) (issues : List String) :
    List (OutStream × String) :=
  if can_deposit then
    [(OutStream.stdout, "✅ All checks passed - Deposits should work!")]
  else
    (OutStream.stdout, "⚠️  Issues found preventing deposits:") ::
      issues.map (fun i => (OutStream.stdout, "  " ++ i)) ++
      [(OutStream.stdout, ""),
       (OutStream.stdout, "To fix:"),
       (OutStream.stdout, "  1. Run: bash scripts/unpause-contracts.sh"),
       (OutStream.stdout, "  2. Ensure DEPLOYER_PRIVATE_KEY environment variable is set"),
       (OutStream.stdout, "  3. Ensure MEZO_TESTNET_RPC environment variable is set (optional)")]

/-- Full execution of `main` as a function of the world.  Mirrors the script
line by line: banner, connection phase (exit 1 on failure, before any
contract call), connected banner showing the block number, the two pool
pause checks, the aggregator inspection and detail block, then the summary
computed by `readiness`.  Every `print` goes to standard output. -/
def run (w : World) : RunResult :=
  match w.connect with
  | Except.error e =>
      { exitCode := 1, calls := [],
        output := headerOut ++ [(OutStream.stdout, "❌ Connection error: " ++ e)],
        can_deposit := none, issues := [], reachedSummary := false }
  | Except.ok false =>
      { exitCode := 1, calls := [],
        output := headerOut ++ [(OutStream.stdout, "❌ Failed to connect to Mezo Testnet RPC")],
        can_deposit := none, issues := [], reachedSummary := false }
  | Except.ok true =>
      let indRes := check_contract_paused w.indPaused INDIVIDUAL_POOL "IndividualPool"
      let ind_paused := indRes.1
      let coopRes := check_contract_paused w.coopPaused COOPERATIVE_POOL "CooperativePool"
      let coop_paused := coopRes.1
      let aggRes := check_yield_aggregator_state w
      let agg_state := aggRes.1
      let verdict := readiness ind_paused agg_state
      { exitCode := 0,
        calls := indRes.2.1 ++ coopRes.2.1 ++ aggRes.2.1,
        output := headerOut ++ connectedOut w.blockNumber ++ indRes.2.2 ++
          indStatusOut ind_paused ++ coopRes.2.2 ++ coopStatusOut coop_paused ++
          aggHeaderOut ++ aggRes.2.2 ++ aggDetailOut agg_state ++
          summaryHeaderOut ++ summaryOut verdict.1 verdict.2 ++
          [(OutStream.stdout, pyRepeat "=" 60)],
        can_deposit := some verdict.1,
        issues := verdict.2,
        reachedSummary := true }

/-- Prefix test on character lists. -/
def leadsWith : List Char → List Char → Bool
  | [], _ => true
  | _ :: _, [] => false
  | a :: as, b :: bs => a == b && leadsWith as bs

/-- Substring test on character lists: does `needle` occur contiguously in
the second argument? -/
def containsSub (needle : List Char) : List Char → Bool
  | [] => leadsWith needle []
  | c :: rest => leadsWith needle (c :: rest) || containsSub needle rest

/-- Does no string in the list mention the given text as a substring? -/
def noMention (needle : String) (l : List String) : Bool :=
  l.all (fun s => !(containsSub needle.toList s.toList))

/-- Is every output event on standard output? -/
def allStdout : List (OutStream × String) → Bool
  | [] => true
  | (s, _) :: rest => s == OutStream.stdout && allStdout rest

/-- Did the guarded connection phase fail (constructor or `is_connected()`
raised, or `is_connected()` returned false)? -/
def connectFailed (w : World) : Bool :=
  match w.connect with
  | Except.error _ => true
  | Except.ok b => !b

/-- Does no call in the run target the given address? -/
def neverCalls (a : String) (r : RunResult) : Bool :=
  r.calls.all (fun c => c.address != a)

/-- The value of `ind_paused` (resp. `coop_paused`) in `main` as a function
of the call outcome: a successful call yields its boolean, a raised call
yields `None`. -/
def statusOf : Except String Bool → Option Bool
  | Except.ok b => some b
  | Except.error _ => none

/-- `example` scratch checks of the model on concrete worlds. -/
example :
    (run ⟨Except.ok true, 5, Except.ok false, Except.ok false, Except.ok false,
          Except.ok false, Except.ok ["0xV1"]⟩).can_deposit = some true := by decide

example :
    (run ⟨Except.ok true, 5, Except.ok true, Except.ok false, Except.ok false,
          Except.ok false, Except.ok []⟩).issues =
      ["❌ IndividualPool is paused", "❌ No vaults configured in YieldAggregator"] := by
  decide

/-- C1: with the aggregator state available, `can_deposit` is true exactly
when IndividualPool is not paused, the aggregator is not paused, aggregator
deposits are not paused, and at least one vault is configured. -/
theorem canDeposit_iff_all_clear (ip ap dp : Bool) (n : Nat) (vs : List String) :
    (readiness (some ip) (some ⟨ap, dp, n, vs⟩)).1 = true ↔
      (ip = false ∧ ap = false ∧ dp = false ∧ 0 < n) := by
  cases ip <;> cases ap <;> cases dp <;> cases n <;>
    simp [readiness, truthy]

/-- C10: at the end of the readiness evaluation, for every combination of
check results, `can_deposit` is true exactly when the `issues` list is
empty. -/
theorem canDeposit_iff_no_issues (b : Option Bool) (a : Option AggState) :
    (readiness b a).1 = true ↔ (readiness b a).2 = [] := by
  cases a with
  | none => cases b with
    | none => simp [readiness, truthy]
    | some bb => cases bb <;> simp [readiness, truthy]
  | some s =>
    obtain ⟨ap, dp, n, vs⟩ := s
    cases b with
    | none => cases ap <;> cases dp <;> cases n <;> simp [readiness, truthy]
    | some bb => cases bb <;> cases ap <;> cases dp <;> cases n <;>
        simp [readiness, truthy]

/-- Every issue string the evaluator can produce leaves CooperativePool
unmentioned. -/
theorem noMention_coop_issues (b : Option Bool) (a : Option AggState) :
    noMention "CooperativePool" (readiness b a).2 = true := by
  cases a with
  | none => cases b with
    | none => decide
    | some bb => cases bb <;> decide
  | some s =>
    obtain ⟨ap, dp, n, vs⟩ := s
    cases b with
    | none => cases ap <;> cases dp <;> cases n <;>
        simp [readiness, truthy] <;> decide
    | some bb => cases bb <;> cases ap <;> cases dp <;> cases n <;>
        simp [readiness, truthy] <;> decide

/-- C2: two runs that differ only in the outcome of CooperativePool's
`paused()` call produce the same `can_deposit` and the same `issues` list,
and CooperativePool never appears in any issue string. -/
theorem coop_pause_noninterference (w : World) (c1 c2 : Except String Bool) :
    (run { w with coopPaused := c1 }).can_deposit =
      (run { w with coopPaused := c2 }).can_deposit ∧
    (run { w with coopPaused := c1 }).issues =
      (run { w with coopPaused := c2 }).issues ∧
    noMention "CooperativePool" (run { w with coopPaused := c1 }).issues = true := by
  obtain ⟨conn, bn, ind, coop, ap, adp, av⟩ := w
  cases conn with
  | error e => exact ⟨rfl, rfl, rfl⟩
  | ok b =>
    cases b with
    | false => exact ⟨rfl, rfl, rfl⟩
    | true => exact ⟨rfl, rfl, noMention_coop_issues _ _⟩

/-- C4: the process exit status is 1 exactly when the guarded connection
phase fails, in which case no contract call has been issued; every run that
gets past the connection exits with status 0. -/
theorem exit_code_iff_connect_failure (w : World) :
    (run w).exitCode = (if connectFailed w then 1 else 0) ∧
    (connectFailed w = true → (run w).calls = []) := by
  obtain ⟨conn, bn, ind, coop, ap, adp, av⟩ := w
  cases conn with
  | error e => exact ⟨rfl, fun _ => rfl⟩
  | ok b =>
    cases b with
    | false => exact ⟨rfl, fun _ => rfl⟩
    | true => exact ⟨rfl, fun h => by simp [connectFailed] at h⟩

/-- World where the connection phase raises. -/
def w4 : World :=
  ⟨Except.error "connection refused", 0, Except.ok false, Except.ok false,
   Except.ok false, Except.ok false, Except.ok []⟩

/-- Witness for C4 at a concrete failing world. -/
theorem exit_code_iff_connect_failure_witness :
    (run w4).exitCode = (if connectFailed w4 then 1 else 0) ∧ (run w4).calls = [] :=
  ⟨(exit_code_iff_connect_failure w4).1,
   (exit_code_iff_connect_failure w4).2 (by decide)⟩

/-- C8: in every run, no contract call targets the `MEZO_INTEGRATION`
address. -/
theorem mezo_integration_never_called (w : World) :
    neverCalls MEZO_INTEGRATION (run w) = true := by
  obtain ⟨conn, bn, ind, coop, ap, adp, av⟩ := w
  cases conn <;> [rfl; skip]
  rename_i b
  cases b <;> [rfl; skip]
  cases ind <;> cases coop <;> cases ap <;> cases adp <;> cases av <;> rfl

/-- World where the IndividualPool check raises but everything else is
healthy. -/
def w9 : World :=
  ⟨Except.ok true, 7, Except.error "timeout", Except.ok false, Except.ok false,
   Except.ok false, Except.ok ["0xV1"]⟩

/-- C9: an unknown IndividualPool status is evaluated exactly like `False`
(not paused); concretely, a run whose IndividualPool check failed can still
end with `can_deposit = True` and print the all-checks-passed line while
showing IndividualPool's status as unknown. -/
theorem unknown_ind_treated_as_unpaused :
    (∀ a : Option AggState, readiness none a = readiness (some false) a) ∧
    (OutStream.stdout, "❓ IndividualPool: Status unknown") ∈ (run w9).output ∧
    (OutStream.stdout, "✅ All checks passed - Deposits should work!") ∈ (run w9).output ∧
    (run w9).can_deposit = some true := by
  refine ⟨fun a => by cases a <;> rfl, by decide, by decide, by decide⟩

/-- Did all three aggregator call outcomes succeed? -/
def aggAllOk (w : World) : Bool :=
  match w.aggPaused, w.aggDepositsPaused, w.aggVaults with
  | Except.ok _, Except.ok _, Except.ok _ => true
  | _, _, _ => false

/-- The exception message the aggregator inspection runs into, if any: the
first call in the sequence `paused()`, `depositsPaused()`,
`activeVaultsList()` that raises. -/
def aggErrOf (w : World) : Option String :=
  match w.aggPaused with
  | Except.error e => some e
  | Except.ok _ =>
    match w.aggDepositsPaused with
    | Except.error e => some e
    | Except.ok _ =>
      match w.aggVaults with
      | Except.error e => some e
      | Except.ok _ => none

/-- C3: whenever one of the three aggregator calls raises, the inspection
returns `None` (never a partial state), the issues list carries only the
possible IndividualPool entry, and `can_deposit` is exactly the negation of
IndividualPool's (truthy) pause status. -/
theorem agg_failure_all_or_nothing (w : World)
    (hc : w.connect = Except.ok true) (hf : aggAllOk w = false) :
    (check_yield_aggregator_state w).1 = none ∧
    (run w).issues =
      (if truthy (statusOf w.indPaused) then ["❌ IndividualPool is paused"] else []) ∧
    (run w).can_deposit = some (!truthy (statusOf w.indPaused)) := by
  obtain ⟨conn, bn, ind, coop, ap, adp, av⟩ := w
  cases conn with
  | error e0 => exact absurd hc (by simp)
  | ok b =>
    cases b with
    | false => exact absurd hc (by simp)
    | true =>
      cases ap with
      | error e =>
          cases ind with
          | error e2 => exact ⟨rfl, rfl, rfl⟩
          | ok b1 => cases b1 <;> exact ⟨rfl, rfl, rfl⟩
      | ok a1 =>
          cases adp with
          | error e =>
              cases ind with
              | error e2 => exact ⟨rfl, rfl, rfl⟩
              | ok b1 => cases b1 <;> exact ⟨rfl, rfl, rfl⟩
          | ok a2 =>
              cases av with
              | error e =>
                  cases ind with
                  | error e2 => exact ⟨rfl, rfl, rfl⟩
                  | ok b1 => cases b1 <;> exact ⟨rfl, rfl, rfl⟩
              | ok vs => simp [aggAllOk] at hf

/-- World where IndividualPool is paused and the aggregator inspection
raises on its first call. -/
def w3 : World :=
  ⟨Except.ok true, 3, Except.ok true, Except.ok false, Except.error "revert",
   Except.ok false, Except.ok []⟩

/-- Witness for C3 at a concrete world with a failed aggregator call. -/
theorem agg_failure_all_or_nothing_witness :
    (check_yield_aggregator_state w3).1 = none ∧
    (run w3).issues =
      (if truthy (statusOf w3.indPaused) then ["❌ IndividualPool is paused"] else []) ∧
    (run w3).can_deposit = some (!truthy (statusOf w3.indPaused)) :=
  agg_failure_all_or_nothing w3 rfl (by decide)

/-- `allStdout` distributes over list append. -/
theorem allStdout_append (l1 l2 : List (OutStream × String)) :
    allStdout (l1 ++ l2) = (allStdout l1 && allStdout l2) := by
  induction l1 with
  | nil => rfl
  | cons h t ih => cases h; simp [allStdout, ih, Bool.and_assoc]

/-- A standard-output event never breaks `allStdout`. -/
theorem allStdout_cons (s : String) (l : List (OutStream × String)) :
    allStdout ((OutStream.stdout, s) :: l) = allStdout l := by
  simp [allStdout]

/-- Tagged maps only ever produce standard-output events. -/
theorem allStdout_map_tag (l : List String) (f : String → String) :
    allStdout (l.map fun v => ((OutStream.stdout, f v) : OutStream × String)) = true := by
  induction l with
  | nil => rfl
  | cons h t ih => simp [allStdout, List.map_cons, ih]

/-- The pool check prints only to standard output. -/
theorem allStdout_check_pool (r : Except String Bool) (a n : String) :
    allStdout (check_contract_paused r a n).2.2 = true := by
  cases r <;> rfl

/-- The aggregator inspection prints only to standard output. -/
theorem allStdout_check_agg (w : World) :
    allStdout (check_yield_aggregator_state w).2.2 = true := by
  obtain ⟨conn, bn, ind, coop, ap, adp, av⟩ := w
  cases ap <;> cases adp <;> cases av <;> rfl

/-- The IndividualPool status line goes to standard output. -/
theorem allStdout_indStatusOut (o : Option Bool) :
    allStdout (indStatusOut o) = true := by
  cases o <;> rfl

/-- The CooperativePool status line goes to standard output. -/
theorem allStdout_coopStatusOut (o : Option Bool) :
    allStdout (coopStatusOut o) = true := by
  cases o <;> rfl

/-- The aggregator detail block goes to standard output. -/
theorem allStdout_aggDetailOut (o : Option AggState) :
    allStdout (aggDetailOut o) = true := by
  cases o with
  | none => rfl
  | some s =>
      obtain ⟨ap, dp, n, vs⟩ := s
      cases hn : (n == 0) <;>
        simp [aggDetailOut, hn, allStdout_append, allStdout_cons, allStdout_map_tag,
          allStdout]

/-- The summary block goes to standard output. -/
theorem allStdout_summaryOut (c : Bool) (issues : List String) :
    allStdout (summaryOut c issues) = true := by
  cases c with
  | true => rfl
  | false =>
      simp [summaryOut, allStdout_append, allStdout_cons, allStdout_map_tag, allStdout]

/-- Every line the script prints, in every run, goes to standard output:
the script only ever uses `print(...)` without a `file=` argument. -/
theorem allStdout_run (w : World) : allStdout (run w).output = true := by
  obtain ⟨conn, bn, ind, coop, ap, adp, av⟩ := w
  cases conn with
  | error e => rfl
  | ok b =>
    cases b with
    | false => rfl
    | true =>
      dsimp only [run]
      simp only [allStdout_append, Bool.and_eq_true]
      exact ⟨⟨⟨⟨⟨⟨⟨⟨⟨⟨⟨rfl, rfl⟩, allStdout_check_pool _ _ _⟩,
        allStdout_indStatusOut _⟩, allStdout_check_pool _ _ _⟩,
        allStdout_coopStatusOut _⟩, rfl⟩, allStdout_check_agg _⟩,
        allStdout_aggDetailOut _⟩, rfl⟩, allStdout_summaryOut _ _⟩, rfl⟩

/-- World where the IndividualPool check raises `execution reverted`. -/
def w5 : World :=
  ⟨Except.ok true, 1, Except.error "execution reverted", Except.ok false,
   Except.ok false, Except.ok false, Except.ok ["0xV1"]⟩

/-- C5 counterexample: a failed contract call's error line (with the
contract's name) is printed to standard output, not standard error — the
script writes it with a plain `print`.  At this concrete world the
IndividualPool error line appears on stdout, does not appear on stderr, and
nothing at all is written to stderr. -/
theorem errors_on_stdout_not_stderr_cex :
    (OutStream.stdout, "❌ Error checking IndividualPool: execution reverted") ∈
      (run w5).output ∧
    (OutStream.stderr, "❌ Error checking IndividualPool: execution reverted") ∉
      (run w5).output ∧
    allStdout (run w5).output = true :=
  ⟨by decide, by decide, by decide⟩

/-- C5 amended: whenever a contract call fails, the error line naming the
contract is printed — but to standard output, like every other line of the
report; nothing is ever written to standard error. -/
theorem error_lines_on_stdout (w : World) (e : String)
    (hc : w.connect = Except.ok true) :
    (w.indPaused = Except.error e →
      (OutStream.stdout, "❌ Error checking IndividualPool: " ++ e) ∈ (run w).output) ∧
    (w.coopPaused = Except.error e →
      (OutStream.stdout, "❌ Error checking CooperativePool: " ++ e) ∈ (run w).output) ∧
    (aggErrOf w = some e →
      (OutStream.stdout, "❌ Error checking YieldAggregator: " ++ e) ∈ (run w).output) ∧
    allStdout (run w).output = true := by
  obtain ⟨conn, bn, ind, coop, ap, adp, av⟩ := w
  cases conn with
  | error e0 => exact absurd hc (by simp)
  | ok b =>
    cases b with
    | false => exact absurd hc (by simp)
    | true =>
      refine ⟨?_, ?_, ?_, allStdout_run _⟩
      · intro h
        replace h : ind = Except.error e := h
        subst h
        simp [run, check_contract_paused]
      · intro h
        replace h : coop = Except.error e := h
        subst h
        simp [run, check_contract_paused]
      · intro h
        replace h : aggErrOf ⟨Except.ok true, bn, ind, coop, ap, adp, av⟩ = some e := h
        cases ap with
        | error e3 =>
            simp [aggErrOf] at h
            subst h
            simp [run, check_yield_aggregator_state]
        | ok a1 =>
          cases adp with
          | error e4 =>
              simp [aggErrOf] at h
              subst h
              simp [run, check_yield_aggregator_state]
          | ok a2 =>
            cases av with
            | error e5 =>
                simp [aggErrOf] at h
                subst h
                simp [run, check_yield_aggregator_state]
            | ok vs => simp [aggErrOf] at h

/-- World where all three contracts' first calls raise. -/
def w5w : World :=
  ⟨Except.ok true, 1, Except.error "boom", Except.error "boom",
   Except.error "boom", Except.ok false, Except.ok []⟩

/-- Witness for the amended C5 at a concrete world where every check fails. -/
theorem error_lines_on_stdout_witness :
    (OutStream.stdout, "❌ Error checking IndividualPool: " ++ "boom") ∈ (run w5w).output ∧
    (OutStream.stdout, "❌ Error checking CooperativePool: " ++ "boom") ∈ (run w5w).output ∧
    (OutStream.stdout, "❌ Error checking YieldAggregator: " ++ "boom") ∈ (run w5w).output ∧
    allStdout (run w5w).output = true := by
  obtain ⟨h1, h2, h3, h4⟩ := error_lines_on_stdout w5w "boom" rfl
  exact ⟨h1 rfl, h2 rfl, h3 rfl, h4⟩

/-- World where IndividualPool is paused and the aggregator inspection
raises on its first call (aggregator unavailable). -/
def w6 : World :=
  ⟨Except.ok true, 2, Except.ok true, Except.ok false, Except.error "down",
   Except.ok false, Except.ok []⟩

/-- C6 counterexample: with IndividualPool paused and the aggregator
unavailable, the issues list is `["❌ IndividualPool is paused"]` — the
stored string carries the `❌ ` marker, so the list is not equal to
`["IndividualPool is paused"]` as the claim states. -/
theorem ind_issue_exact_string_cex :
    (run w6).issues = ["❌ IndividualPool is paused"] ∧
    (run w6).issues ≠ ["IndividualPool is paused"] :=
  ⟨by decide, by decide⟩

/-- C6 amended: when IndividualPool's pause status is `True`, the evaluator
sets `can_deposit` to false and appends exactly the issue string
`"❌ IndividualPool is paused"`; with the aggregator unavailable this is
the entire issues list. -/
theorem ind_paused_issue (b : Option Bool) (a : Option AggState)
    (h : truthy b = true) :
    (readiness b a).1 = false ∧
    "❌ IndividualPool is paused" ∈ (readiness b a).2 ∧
    (a = none → (readiness b a).2 = ["❌ IndividualPool is paused"]) := by
  cases b with
  | none => simp [truthy] at h
  | some bb =>
    cases bb with
    | false => simp [truthy] at h
    | true =>
      cases a with
      | none => exact ⟨rfl, by simp [readiness, truthy], fun _ => rfl⟩
      | some s =>
        obtain ⟨ap, dp, n, vs⟩ := s
        refine ⟨?_, ?_, fun hx => by cases hx⟩
        · cases ap <;> cases dp <;> cases n <;> rfl
        · cases ap <;> cases dp <;> cases n <;> simp [readiness, truthy]

/-- Witness for the amended C6: IndividualPool paused, aggregator state
unavailable. -/
theorem ind_paused_issue_witness :
    (readiness (some true) none).1 = false ∧
    (readiness (some true) none).2 = ["❌ IndividualPool is paused"] :=
  ⟨(ind_paused_issue (some true) none rfl).1,
   (ind_paused_issue (some true) none rfl).2.2 rfl⟩

/-- The pool check issues exactly the one `paused()` call against its
address, whether or not the call succeeds. -/
theorem check_pool_calls (r : Except String Bool) (a n : String) :
    (check_contract_paused r a n).2.1 = [⟨a, "paused"⟩] := by
  cases r <;> rfl

/-- The aggregator inspection always issues its `paused()` call. -/
theorem check_agg_first_call (w : World) :
    (⟨YIELD_AGGREGATOR, "paused"⟩ : ContractCall) ∈
      (check_yield_aggregator_state w).2.1 := by
  obtain ⟨conn, bn, ind, coop, ap, adp, av⟩ := w
  cases ap <;> cases adp <;> cases av <;>
    simp [check_yield_aggregator_state]

/-- C7: a failure of one pool's `paused()` call is isolated to that
contract: the failed check reports unknown status, both pools' `paused()`
calls and the aggregator inspection are still issued, and the run reaches
the final summary — as does every run that gets past the connection phase. -/
theorem pool_failure_isolated (w : World) (e : String)
    (hc : w.connect = Except.ok true) :
    (w.indPaused = Except.error e →
      (OutStream.stdout, "❓ IndividualPool: Status unknown") ∈ (run w).output) ∧
    (w.coopPaused = Except.error e →
      (OutStream.stdout, "❓ CooperativePool: Status unknown") ∈ (run w).output) ∧
    (⟨INDIVIDUAL_POOL, "paused"⟩ : ContractCall) ∈ (run w).calls ∧
    (⟨COOPERATIVE_POOL, "paused"⟩ : ContractCall) ∈ (run w).calls ∧
    (⟨YIELD_AGGREGATOR, "paused"⟩ : ContractCall) ∈ (run w).calls ∧
    (run w).reachedSummary = true := by
  obtain ⟨conn, bn, ind, coop, ap, adp, av⟩ := w
  cases conn with
  | error e0 => exact absurd hc (by simp)
  | ok b =>
    cases b with
    | false => exact absurd hc (by simp)
    | true =>
      refine ⟨?_, ?_, ?_, ?_, ?_, rfl⟩
      · intro h
        replace h : ind = Except.error e := h
        subst h
        simp [run, check_contract_paused, indStatusOut]
      · intro h
        replace h : coop = Except.error e := h
        subst h
        simp [run, check_contract_paused, coopStatusOut]
      · simp [run, check_pool_calls]
      · simp [run, check_pool_calls]
      · dsimp only [run]
        exact List.mem_append_right _ (check_agg_first_call _)

/-- World where both pools' checks raise but the aggregator is healthy. -/
def w7 : World :=
  ⟨Except.ok true, 4, Except.error "down", Except.error "down", Except.ok false,
   Except.ok false, Except.ok ["0xV1"]⟩

/-- Witness for C7 at a concrete world with failing pool checks. -/
theorem pool_failure_isolated_witness :
    (OutStream.stdout, "❓ IndividualPool: Status unknown") ∈ (run w7).output ∧
    (OutStream.stdout, "❓ CooperativePool: Status unknown") ∈ (run w7).output ∧
    (⟨INDIVIDUAL_POOL, "paused"⟩ : ContractCall) ∈ (run w7).calls ∧
    (⟨COOPERATIVE_POOL, "paused"⟩ : ContractCall) ∈ (run w7).calls ∧
    (⟨YIELD_AGGREGATOR, "paused"⟩ : ContractCall) ∈ (run w7).calls ∧
    (run w7).reachedSummary = true := by
  obtain ⟨h1, h2, h3, h4, h5, h6⟩ := pool_failure_isolated w7 "down" rfl
  exact ⟨h1 rfl, h2 rfl, h3, h4, h5, h6⟩

end KhipuCheck
